import Mathlib

set_option maxRecDepth 100000

/-!
Verification of the `xtask clippy` wrapper (`tooling/xtask/src/main.rs`).

The program parses two CLI options (`--fix : bool`, `--package : Option String`),
resolves the `CARGO` environment variable (defaulting to `"cargo"`), builds an
argument vector for `cargo clippy`, prints a diagnostic line, spawns the child
process, waits for it, and translates the exit status into a result.

The embedding below mirrors `run_clippy` directly: the argument vector is a
`List String` built in the same order as the source's `.arg`/`.args` calls,
OS-level strings are modelled by `OsStr` (valid UTF-8 or not), the environment
variable lookup by `env_var`, and the spawn/wait/exit-status handling by
`run_process` over an abstract `ProcessBehavior`.
-/

/-- The CLI options of the `clippy` subcommand (struct `ClippyArgs` in the
source): `fix` enables `clippy --fix`, `package` selects a single package. -/
structure ClippyArgs where
  fix : Bool
  package : Option String
deriving DecidableEq

/-- The constant `MIGRATORY_RULES_TO_ALLOW` from the source: all rules that
currently have violations in the Zed codebase, in the source's order. -/
def MIGRATORY_RULES_TO_ALLOW : List String :=
  [ "clippy::style",
    "clippy::almost_complete_range",
    "clippy::arc_with_non_send_sync",
    "clippy::await_holding_lock",
    "clippy::bool_comparison",
    "clippy::borrow_deref_ref",
    "clippy::borrowed_box",
    "clippy::cast_abs_to_unsigned",
    "clippy::clone_on_copy",
    "clippy::cmp_owned",
    "clippy::crate_in_macro_def",
    "clippy::default_constructed_unit_structs",
    "clippy::derivable_impls",
    "clippy::derive_ord_xor_partial_ord",
    "clippy::drain_collect",
    "clippy::eq_op",
    "clippy::expect_fun_call",
    "clippy::explicit_auto_deref",
    "clippy::explicit_counter_loop",
    "clippy::extra_unused_lifetimes",
    "clippy::filter_map_identity",
    "clippy::identity_op",
    "clippy::implied_bounds_in_impls",
    "clippy::iter_kv_map",
    "clippy::iter_overeager_cloned",
    "clippy::let_underscore_future",
    "clippy::manual_find",
    "clippy::manual_flatten",
    "clippy::map_entry",
    "clippy::map_flatten",
    "clippy::map_identity",
    "clippy::needless_arbitrary_self_type",
    "clippy::needless_borrowed_reference",
    "clippy::needless_lifetimes",
    "clippy::needless_option_as_deref",
    "clippy::needless_question_mark",
    "clippy::needless_update",
    "clippy::never_loop",
    "clippy::non_canonical_clone_impl",
    "clippy::non_canonical_partial_ord_impl",
    "clippy::nonminimal_bool",
    "clippy::option_as_ref_deref",
    "clippy::option_map_unit_fn",
    "clippy::redundant_closure_call",
    "clippy::redundant_guards",
    "clippy::redundant_locals",
    "clippy::reversed_empty_ranges",
    "clippy::search_is_some",
    "clippy::single_char_pattern",
    "clippy::single_range_in_vec_init",
    "clippy::suspicious_to_owned",
    "clippy::to_string_in_format_args",
    "clippy::too_many_arguments",
    "clippy::type_complexity",
    "clippy::unit_arg",
    "clippy::unnecessary_cast",
    "clippy::unnecessary_filter_map",
    "clippy::unnecessary_find_map",
    "clippy::unnecessary_operation",
    "clippy::unnecessary_to_owned",
    "clippy::unnecessary_unwrap",
    "clippy::useless_conversion",
    "clippy::useless_format",
    "clippy::vec_init_then_push" ]

/-- The allow-flag block: the source's loop
`for rule in MIGRATORY_RULES_TO_ALLOW { clippy_command.args(["--allow", rule]) }`. -/
def allow_args (rules : List String) : List String :=
  rules.flatMap (fun r => ["--allow", r])

/-- The scope selector: `--package <name>` when a package is given,
`--workspace` otherwise (lines 44-48 of the source). -/
def scope_args : Option String → List String
  | some p => ["--package", p]
  | none => ["--workspace"]

/-- The two unconditional deny flags appended last (lines 152-155). -/
def deny_rules_args : List String :=
  ["--deny", "clippy::dbg_macro", "--deny", "clippy::todo"]

/-- The argument vector built by `run_clippy`, in the exact order of the
source's `.arg`/`.args` calls.  `isWindows` reflects the
`#[cfg(not(target_os = "windows"))]` guard around `--deny warnings`. -/
def run_clippy_args (a : ClippyArgs) (isWindows : Bool) : List String :=
  ["clippy"]
  ++ scope_args a.package
  ++ ["--release", "--all-targets", "--all-features"]
  ++ (if a.fix then ["--fix"] else [])
  ++ ["--"]
  ++ (if isWindows then [] else ["--deny", "warnings"])
  ++ (if a.fix then [] else allow_args MIGRATORY_RULES_TO_ALLOW)
  ++ deny_rules_args

/-- An operating-system string: either valid UTF-8 (convertible to `String`)
or raw non-UTF-8 bytes.  Models Rust's `OsStr`/`OsString`. -/
inductive OsStr
  | ofString (s : String)
  | ofBytes (b : List Nat)
deriving DecidableEq

/-- Rust's `OsStr::to_str`: `some` exactly for valid UTF-8 strings. -/
def OsStr.toStr? : OsStr → Option String
  | OsStr.ofString s => some s
  | OsStr.ofBytes _ => none

/-- Rust's `std::env::VarError`: the variable is absent, or present but not
valid unicode. -/
inductive VarError
  | notPresent
  | notUnicode
deriving DecidableEq

/-- Rust's `std::env::var`: errors when the variable is absent or its value is
not valid unicode, otherwise yields the value as a `String`. -/
def env_var : Option OsStr → Except VarError String
  | none => Except.error VarError.notPresent
  | some o =>
    match o.toStr? with
    | some s => Except.ok s
    | none => Except.error VarError.notUnicode

/-- The executable name resolution
`std::env::var("CARGO").unwrap_or_else(|_| "cargo".to_string())` (line 39):
`cargoVar` is the state of the `CARGO` environment variable. -/
def resolve_cargo (cargoVar : Option OsStr) : String :=
  match env_var cargoVar with
  | Except.ok s => s
  | Except.error _ => "cargo"

/-- The full command `run_clippy` constructs: the executable name (from the
`CARGO` environment variable) together with the argument vector. -/
def constructed_command (cargoVar : Option OsStr) (a : ClippyArgs)
    (isWindows : Bool) : String × List String :=
  (resolve_cargo cargoVar, run_clippy_args a isWindows)

/-- The arguments as the spawned `Command` holds them (`get_args` yields
`OsStr`s): every argument was pushed via `.arg`/`.args` from a Rust string. -/
def run_clippy_args_os (a : ClippyArgs) (isWindows : Bool) : List OsStr :=
  (run_clippy_args a isWindows).map OsStr.ofString

/-- The mapping `.map(|arg| arg.to_str().unwrap()).collect()` from the
diagnostic `eprintln!` (lines 157-164): `none` exactly when some `unwrap`
would panic. -/
def to_str_all : List OsStr → Option (List String)
  | [] => some []
  | a :: rest =>
    match OsStr.toStr? a, to_str_all rest with
    | some s, some l => some (s :: l)
    | _, _ => none

/-- The diagnostic line written to stderr before spawning:
`running: {cargo} {args joined by spaces}`; `none` when formatting would
panic. -/
def diagnostic_line (cargoVar : Option OsStr) (a : ClippyArgs)
    (isWindows : Bool) : Option String :=
  (to_str_all (run_clippy_args_os a isWindows)).map
    (fun l => "running: " ++ resolve_cargo cargoVar ++ " " ++ String.intercalate " " l)

/-- The exit status of a terminated process: `code = some n` when it exited
with code `n`, `none` when it was terminated by a signal. -/
structure ExitStatus where
  code : Option Int
deriving DecidableEq

/-- Rust's `ExitStatus::success`: true exactly for exit code zero. -/
def ExitStatus.success (s : ExitStatus) : Bool :=
  s.code == some 0

/-- The errors `run_clippy` can return: a spawn failure or wait failure with
`anyhow` context wrapping the OS error, or `bail!("clippy failed: {}", status)`
carrying the exit status. -/
inductive XtaskError
  | spawnError (ctx : String) (osError : String)
  | waitError (ctx : String) (osError : String)
  | lintFailure (status : ExitStatus)
deriving DecidableEq

/-- The outcome of the OS operations `spawn` and `wait` for one run: inputs to
the embedding standing for what the operating system does. -/
structure ProcessBehavior where
  spawn : Except String Unit
  wait : Except String ExitStatus

/-- The spawn/wait/exit-status handling of `run_clippy` (lines 166-176):
`spawn().context("failed to spawn child process")?`,
`wait().context("failed to wait for child process")?`, then
`if !exit_status.success() { bail!(...) }` and `Ok(())`. -/
def run_process (b : ProcessBehavior) : Except XtaskError Unit :=
  match b.spawn with
  | Except.error e => Except.error (XtaskError.spawnError "failed to spawn child process" e)
  | Except.ok _ =>
    match b.wait with
    | Except.error e => Except.error (XtaskError.waitError "failed to wait for child process" e)
    | Except.ok st =>
      if st.success then Except.ok () else Except.error (XtaskError.lintFailure st)

/-- Counts the adjacent occurrences of the pair `flag, val` in an argument
list: the number of times `val` is passed as the value of `flag`. -/
def count_pair (flag val : String) : List String → Nat
  | a :: b :: rest =>
    (if a = flag ∧ b = val then 1 else 0) + count_pair flag val (b :: rest)
  | _ => 0

/-! ### Helper lemmas about `count_pair` -/

theorem count_pair_cons_cons (f v a b : String) (l : List String) :
    count_pair f v (a :: b :: l) =
      (if a = f ∧ b = v then 1 else 0) + count_pair f v (b :: l) := rfl

theorem count_pair_cons_of_ne (f v a : String) (l : List String) (h : a ≠ f) :
    count_pair f v (a :: l) = count_pair f v l := by
  cases l with
  | nil => rfl
  | cons b l' => rw [count_pair_cons_cons]; simp [h]

theorem count_pair_cons_of_head_ne (f v a b : String) (l : List String)
    (h : b ≠ v) :
    count_pair f v (a :: b :: l) = count_pair f v (b :: l) := by
  rw [count_pair_cons_cons]; simp [h]

theorem count_pair_append_of_ne (f v : String) (xs l : List String)
    (h : ∀ a ∈ xs, a ≠ f) :
    count_pair f v (xs ++ l) = count_pair f v l := by
  induction xs with
  | nil => rfl
  | cons a xs ih =>
    have ha : a ≠ f := h a (List.mem_cons_self a xs)
    rw [List.cons_append, count_pair_cons_of_ne _ _ _ _ ha]
    exact ih (fun b hb => h b (List.mem_cons_of_mem _ hb))

theorem count_pair_allow_args (r : String) (rules suffix : List String)
    (h : ∀ a ∈ rules, a ≠ "--allow") :
    count_pair "--allow" r (allow_args rules ++ suffix) =
      rules.count r + count_pair "--allow" r suffix := by
  induction rules with
  | nil => simp [allow_args]
  | cons ru rest ih =>
    have hru : ru ≠ "--allow" := h ru (List.mem_cons_self ru rest)
    have hrest : ∀ a ∈ rest, a ≠ "--allow" :=
      fun a ha => h a (List.mem_cons_of_mem _ ha)
    have hblock : allow_args (ru :: rest) ++ suffix =
        "--allow" :: ru :: (allow_args rest ++ suffix) := by
      simp [allow_args]
    rw [hblock, count_pair_cons_cons, count_pair_cons_of_ne _ _ _ _ hru, ih hrest]
    by_cases hr : ru = r <;> simp [hr, List.count_cons] <;> omega

theorem migratory_nodup : MIGRATORY_RULES_TO_ALLOW.Nodup := by decide

theorem migratory_ne_allow :
    ∀ a ∈ MIGRATORY_RULES_TO_ALLOW, a ≠ "--allow" := by decide

theorem migratory_ne_release :
    ∀ a ∈ MIGRATORY_RULES_TO_ALLOW, a ≠ "--release" := by decide

theorem count_pair_eq_zero_of_ne (f v : String) (xs : List String)
    (h : ∀ a ∈ xs, a ≠ f) : count_pair f v xs = 0 := by
  have hx := count_pair_append_of_ne f v xs [] h
  simpa using hx

theorem count_pair_package_strip (f v p : String) (l : List String)
    (hcl : ("clippy" : String) ≠ f) (hpk : ("--package" : String) ≠ f)
    (hrl : ("--release" : String) ≠ v) :
    count_pair f v ("clippy" :: "--package" :: p :: "--release" :: l) =
      count_pair f v ("--release" :: l) := by
  rw [count_pair_cons_of_ne f v "clippy" _ hcl,
      count_pair_cons_of_ne f v "--package" _ hpk,
      count_pair_cons_of_head_ne f v p "--release" _ hrl]

theorem run_args_some_shape (fix w : Bool) (p : String) :
    run_clippy_args ⟨fix, some p⟩ w =
      "clippy" :: "--package" :: p :: "--release" ::
        (["--all-targets", "--all-features"]
          ++ (if fix then ["--fix"] else [])
          ++ ["--"]
          ++ (if w then [] else ["--deny", "warnings"])
          ++ (if fix then [] else allow_args MIGRATORY_RULES_TO_ALLOW)
          ++ deny_rules_args) := by
  simp [run_clippy_args, scope_args]

/-! ### Claims C1-C3: the allow and deny flags of the argument vector -/

/-- C1: for every `autoFix = false` input (any package, any platform), the
argument vector contains exactly one `--allow` flag per entry of
`MIGRATORY_RULES_TO_ALLOW` (an allow flag for rule `r` is an occurrence of
`"--allow"` immediately followed by `r`), and the allow flags form one
contiguous block in exactly the list's order. -/
theorem C1_allow_flags (pkg : Option String) (w : Bool) :
    (∀ r ∈ MIGRATORY_RULES_TO_ALLOW,
        count_pair "--allow" r (run_clippy_args ⟨false, pkg⟩ w) = 1) ∧
    ∃ s t, run_clippy_args ⟨false, pkg⟩ w =
        s ++ allow_args MIGRATORY_RULES_TO_ALLOW ++ t := by
  constructor
  · intro r hr
    have hone : MIGRATORY_RULES_TO_ALLOW.count r = 1 :=
      List.count_eq_one_of_mem migratory_nodup hr
    have hden : count_pair "--allow" r deny_rules_args = 0 :=
      count_pair_eq_zero_of_ne _ _ _ (by decide)
    have hblock : count_pair "--allow" r
        (allow_args MIGRATORY_RULES_TO_ALLOW ++ deny_rules_args) = 1 := by
      rw [count_pair_allow_args r _ _ migratory_ne_allow, hden, hone]
    have hrl : ("--release" : String) ≠ r := Ne.symm (migratory_ne_release r hr)
    cases pkg with
    | none =>
      cases w with
      | false =>
        have hshape : run_clippy_args ⟨false, none⟩ false =
            ["clippy", "--workspace", "--release", "--all-targets",
             "--all-features", "--", "--deny", "warnings"]
              ++ (allow_args MIGRATORY_RULES_TO_ALLOW ++ deny_rules_args) := by
          simp [run_clippy_args, scope_args]
        rw [hshape, count_pair_append_of_ne _ _ _ _ (by decide), hblock]
      | true =>
        have hshape : run_clippy_args ⟨false, none⟩ true =
            ["clippy", "--workspace", "--release", "--all-targets",
             "--all-features", "--"]
              ++ (allow_args MIGRATORY_RULES_TO_ALLOW ++ deny_rules_args) := by
          simp [run_clippy_args, scope_args]
        rw [hshape, count_pair_append_of_ne _ _ _ _ (by decide), hblock]
    | some p =>
      cases w with
      | false =>
        have hshape : run_clippy_args ⟨false, some p⟩ false =
            "clippy" :: "--package" :: p :: "--release" ::
              (["--all-targets", "--all-features", "--", "--deny", "warnings"]
                ++ (allow_args MIGRATORY_RULES_TO_ALLOW ++ deny_rules_args)) := by
          simp [run_clippy_args, scope_args]
        rw [hshape, count_pair_package_strip _ _ _ _ (by decide) (by decide) hrl,
            ← List.cons_append, count_pair_append_of_ne _ _ _ _ (by decide), hblock]
      | true =>
        have hshape : run_clippy_args ⟨false, some p⟩ true =
            "clippy" :: "--package" :: p :: "--release" ::
              (["--all-targets", "--all-features", "--"]
                ++ (allow_args MIGRATORY_RULES_TO_ALLOW ++ deny_rules_args)) := by
          simp [run_clippy_args, scope_args]
        rw [hshape, count_pair_package_strip _ _ _ _ (by decide) (by decide) hrl,
            ← List.cons_append, count_pair_append_of_ne _ _ _ _ (by decide), hblock]
  · refine ⟨["clippy"] ++ scope_args pkg
      ++ ["--release", "--all-targets", "--all-features", "--"]
      ++ (if w then [] else ["--deny", "warnings"]), deny_rules_args, ?_⟩
    cases pkg <;> cases w <;> simp [run_clippy_args, scope_args]

/-- Witness for C1 at a concrete input. -/
theorem C1_allow_flags_witness :
    count_pair "--allow" "clippy::style"
      (run_clippy_args ⟨false, some "editor"⟩ false) = 1 :=
  (C1_allow_flags (some "editor") false).1 "clippy::style" (by decide)

/-- C2: for every `autoFix = true` input, the argument vector contains no
`--allow` flag for any entry of `MIGRATORY_RULES_TO_ALLOW`: the suppressed-rule
list is never appended when auto-fixing. -/
theorem C2_no_allow_when_fix (pkg : Option String) (w : Bool) :
    ∀ r ∈ MIGRATORY_RULES_TO_ALLOW,
      count_pair "--allow" r (run_clippy_args ⟨true, pkg⟩ w) = 0 := by
  intro r hr
  have hrl : ("--release" : String) ≠ r := Ne.symm (migratory_ne_release r hr)
  cases pkg with
  | none =>
    cases w with
    | false => exact count_pair_eq_zero_of_ne _ _ _ (by decide)
    | true => exact count_pair_eq_zero_of_ne _ _ _ (by decide)
  | some p =>
    cases w with
    | false =>
      rw [run_args_some_shape, count_pair_package_strip _ _ _ _ (by decide) (by decide) hrl]
      exact count_pair_eq_zero_of_ne _ _ _ (by decide)
    | true =>
      rw [run_args_some_shape, count_pair_package_strip _ _ _ _ (by decide) (by decide) hrl]
      exact count_pair_eq_zero_of_ne _ _ _ (by decide)

/-- Witness for C2 at a concrete input. -/
theorem C2_no_allow_when_fix_witness :
    count_pair "--allow" "clippy::style"
      (run_clippy_args ⟨true, some "editor"⟩ false) = 0 :=
  C2_no_allow_when_fix (some "editor") false "clippy::style" (by decide)

/-- C3: for every input, the argument vector contains the flag `--deny` with
value `clippy::dbg_macro` exactly once and with value `clippy::todo` exactly
once, and the two deny flags are the final block of the vector, hence after
any allow flags. -/
theorem C3_deny_flags (a : ClippyArgs) (w : Bool) :
    count_pair "--deny" "clippy::dbg_macro" (run_clippy_args a w) = 1 ∧
    count_pair "--deny" "clippy::todo" (run_clippy_args a w) = 1 ∧
    ∃ s, run_clippy_args a w = s ++ deny_rules_args := by
  obtain ⟨fix, pkg⟩ := a
  refine ⟨?_, ?_, ?_⟩
  · cases pkg with
    | none => cases fix <;> cases w <;> decide
    | some p =>
      rw [run_args_some_shape,
          count_pair_package_strip _ _ _ _ (by decide) (by decide) (by decide)]
      cases fix <;> cases w <;> decide
  · cases pkg with
    | none => cases fix <;> cases w <;> decide
    | some p =>
      rw [run_args_some_shape,
          count_pair_package_strip _ _ _ _ (by decide) (by decide) (by decide)]
      cases fix <;> cases w <;> decide
  · refine ⟨["clippy"] ++ scope_args pkg
      ++ ["--release", "--all-targets", "--all-features"]
      ++ (if fix then ["--fix"] else []) ++ ["--"]
      ++ (if w then [] else ["--deny", "warnings"])
      ++ (if fix then [] else allow_args MIGRATORY_RULES_TO_ALLOW), ?_⟩
    cases pkg <;> cases fix <;> cases w <;> simp [run_clippy_args, scope_args]

/-! ### Claim C4: the scope selector -/

/-- C4 counterexample: with `package = some "--workspace"` the argument vector
does contain the token `--workspace` (as the value following `--package`),
contradicting the claim that whenever a package is selected the vector does
not contain the whole-workspace flag `--workspace`. -/
theorem C4_counterexample :
    "--workspace" ∈ run_clippy_args ⟨false, some "--workspace"⟩ false := by
  decide

/-- C4 (amended): exactly one scope selector is present: with
`package = some name`, for any name other than the literal token
`--workspace`, the vector contains the adjacent pair `--package name` and no
`--workspace` token; with `package = none` it contains `--workspace` and no
`--package` token. -/
theorem C4_scope_selector (fix w : Bool) (name : String) :
    (name ≠ "--workspace" →
      (∃ s t, run_clippy_args ⟨fix, some name⟩ w = s ++ ["--package", name] ++ t) ∧
      "--workspace" ∉ run_clippy_args ⟨fix, some name⟩ w) ∧
    ("--workspace" ∈ run_clippy_args ⟨fix, none⟩ w ∧
      "--package" ∉ run_clippy_args ⟨fix, none⟩ w) := by
  constructor
  · intro hname
    constructor
    · refine ⟨["clippy"],
        ["--release", "--all-targets", "--all-features"]
          ++ (if fix then ["--fix"] else []) ++ ["--"]
          ++ (if w then [] else ["--deny", "warnings"])
          ++ (if fix then [] else allow_args MIGRATORY_RULES_TO_ALLOW)
          ++ deny_rules_args, ?_⟩
      cases fix <;> cases w <;> simp [run_clippy_args, scope_args]
    · intro hmem
      rw [run_args_some_shape] at hmem
      simp only [List.mem_cons] at hmem
      rcases hmem with h | h | h | h | h
      · exact absurd h (by decide)
      · exact absurd h (by decide)
      · exact hname h.symm
      · exact absurd h (by decide)
      · cases fix <;> cases w <;> exact absurd h (by decide)
  · constructor
    · cases fix <;> cases w <;> decide
    · cases fix <;> cases w <;> decide

/-- Witness for C4 (amended) at a concrete input. -/
theorem C4_scope_selector_witness :
    "--workspace" ∉ run_clippy_args ⟨false, some "editor"⟩ false :=
  ((C4_scope_selector false false "editor").1 (by decide)).2

/-! ### Claim C5: the full vector for `{autoFix: false, package: none}` -/

/-- The argument vector exactly as claim C5 words it for
`{autoFix: false, package: none}` on a non-excluded platform: the lint
subcommand, the whole-workspace flag, the three fixed build flags, the
warnings-as-errors flag, one allow flag per suppressed rule, the two deny
flags, with nothing else between these groups.  Stated from the claim's
words, for comparison with `run_clippy_args`. -/
def claim_C5_vector : List String :=
  ["clippy"] ++ ["--workspace"]
  ++ ["--release", "--all-targets", "--all-features"]
  ++ ["--deny", "warnings"]
  ++ allow_args MIGRATORY_RULES_TO_ALLOW
  ++ deny_rules_args

/-- C5 counterexample: the constructed vector is not the claimed one, because
the code always inserts the `--` separator between the build flags and the
lint-rule flags: position 5 holds `--` where the claim has `--deny`. -/
theorem C5_counterexample :
    run_clippy_args ⟨false, none⟩ false ≠ claim_C5_vector ∧
    (run_clippy_args ⟨false, none⟩ false)[5]? = some "--" ∧
    claim_C5_vector[5]? = some "--deny" := by decide

/-- C5 (amended): for `{autoFix: false, package: none}` the vector is, in
order: the lint subcommand, the whole-workspace flag, the three fixed build
flags, the `--` separator, then (on non-excluded platforms) the
warnings-as-errors flag, then one allow flag per suppressed rule in list
order, then the two deny flags, with nothing else between these groups. -/
theorem C5_vector_shape (w : Bool) :
    run_clippy_args ⟨false, none⟩ w =
      ["clippy"] ++ ["--workspace"]
      ++ ["--release", "--all-targets", "--all-features"]
      ++ ["--"]
      ++ (if w then [] else ["--deny", "warnings"])
      ++ allow_args MIGRATORY_RULES_TO_ALLOW
      ++ deny_rules_args := by
  cases w <;> rfl

/-! ### Claims C6 and C7: exit-status translation and error wrapping -/

/-- C6: when spawn and wait both succeed, `run_clippy` returns `Ok` exactly
when the exit status is a success (exit code zero), and on a non-success
status it fails with a `lintFailure` carrying exactly that status. -/
theorem C6_exit_translation (b : ProcessBehavior) (st : ExitStatus)
    (hs : b.spawn = Except.ok ()) (hw : b.wait = Except.ok st) :
    (run_process b = Except.ok () ↔ st.success = true) ∧
    (st.success = false →
      run_process b = Except.error (XtaskError.lintFailure st)) := by
  cases hsu : st.success <;> simp [run_process, hs, hw, hsu]

/-- Witness for C6 at a concrete input: exit code 101 is not success, so the
run fails with a `lintFailure` carrying exit code 101. -/
theorem C6_exit_translation_witness :
    run_process ⟨Except.ok (), Except.ok ⟨some 101⟩⟩ =
      Except.error (XtaskError.lintFailure ⟨some 101⟩) :=
  (C6_exit_translation ⟨Except.ok (), Except.ok ⟨some 101⟩⟩ ⟨some 101⟩
    rfl rfl).2 (by decide)

/-- C7: a spawn failure yields an error wrapping the OS error with context
`failed to spawn child process`; a wait failure yields an error wrapping the
OS error with context `failed to wait for child process`; both are returned
directly to the caller. -/
theorem C7_spawn_wait_errors (b : ProcessBehavior) :
    (∀ e, b.spawn = Except.error e →
      run_process b =
        Except.error (XtaskError.spawnError "failed to spawn child process" e)) ∧
    (∀ e, b.spawn = Except.ok () → b.wait = Except.error e →
      run_process b =
        Except.error (XtaskError.waitError "failed to wait for child process" e)) := by
  constructor
  · intro e he
    simp [run_process, he]
  · intro e hs hw
    simp [run_process, hs, hw]

/-- Witness for C7 at concrete inputs, one per error path. -/
theorem C7_spawn_wait_errors_witness :
    run_process ⟨Except.error "No such file or directory", Except.ok ⟨some 0⟩⟩ =
      Except.error (XtaskError.spawnError "failed to spawn child process"
        "No such file or directory") ∧
    run_process ⟨Except.ok (), Except.error "interrupted"⟩ =
      Except.error (XtaskError.waitError "failed to wait for child process"
        "interrupted") :=
  ⟨(C7_spawn_wait_errors _).1 "No such file or directory" rfl,
   (C7_spawn_wait_errors _).2 "interrupted" rfl rfl⟩

/-! ### Claim C8: resolving the executable from the CARGO variable -/

/-- C8 counterexample: `std::env::var` errors on a present but non-unicode
value and `unwrap_or_else` then falls back to the default, so with `CARGO`
set to the non-UTF-8 byte string `[255]` the spawned executable is `cargo`,
not the variable's value: the claim that a set variable's value is always
used fails. -/
theorem C8_counterexample :
    resolve_cargo (some (OsStr.ofBytes [255])) = "cargo" ∧
    OsStr.toStr? (OsStr.ofBytes [255]) = none ∧
    OsStr.ofString (resolve_cargo (some (OsStr.ofBytes [255]))) ≠
      OsStr.ofBytes [255] := by decide

/-- C8 (amended): the executable name is resolved from the `CARGO` variable:
when it is set to a valid-UTF-8 value, that value is used; when it is absent
or set to a non-UTF-8 value, the conventional default `cargo` is used. -/
theorem C8_cargo_resolution (s : String) (b : List Nat) :
    resolve_cargo (some (OsStr.ofString s)) = s ∧
    resolve_cargo none = "cargo" ∧
    resolve_cargo (some (OsStr.ofBytes b)) = "cargo" :=
  ⟨rfl, rfl, rfl⟩

/-! ### Claim C9: determinism of the constructed command -/

/-- C9 counterexample: the `CARGO` environment variable also influences the
constructed command: two runs with identical `autoFix` and `package` values
but different `CARGO` values spawn different executable names, so behavior is
not fully determined by the visible option set. -/
theorem C9_counterexample :
    (constructed_command (some (OsStr.ofString "cargo-custom"))
        ⟨false, none⟩ false).1 ≠
      (constructed_command none ⟨false, none⟩ false).1 := by decide

/-- C9 (amended): for a fixed `CARGO` environment value and a fixed target
platform, any two runs with the same `autoFix` and `package` values construct
the identical executable name and identical argument vector. -/
theorem C9_determinism (env : Option OsStr) (a1 a2 : ClippyArgs) (w : Bool)
    (hf : a1.fix = a2.fix) (hp : a1.package = a2.package) :
    constructed_command env a1 w = constructed_command env a2 w := by
  obtain ⟨f1, p1⟩ := a1
  obtain ⟨f2, p2⟩ := a2
  have hf2 : f1 = f2 := hf
  have hp2 : p1 = p2 := hp
  subst hf2
  subst hp2
  rfl

/-- Witness for C9 (amended) at a concrete input. -/
theorem C9_determinism_witness :
    constructed_command none ⟨false, some "editor"⟩ false =
      constructed_command none ⟨false, some "editor"⟩ false :=
  C9_determinism none ⟨false, some "editor"⟩ ⟨false, some "editor"⟩ false
    rfl rfl

/-! ### Claim C10: the diagnostic line never panics -/

theorem to_str_all_map_ofString (l : List String) :
    to_str_all (l.map OsStr.ofString) = some l := by
  induction l with
  | nil => rfl
  | cons a rest ih => simp [to_str_all, OsStr.toStr?, ih]

/-- C10: every argument of the constructed command originates from a valid
UTF-8 Rust string, so `to_str().unwrap()` succeeds on each argument and the
diagnostic line is always formatted without a panic. -/
theorem C10_diagnostic_no_panic (a : ClippyArgs) (w : Bool) :
    to_str_all (run_clippy_args_os a w) = some (run_clippy_args a w) ∧
    ∀ env, (diagnostic_line env a w).isSome = true := by
  have h := to_str_all_map_ofString (run_clippy_args a w)
  refine ⟨h, fun env => ?_⟩
  simp [diagnostic_line, run_clippy_args_os, h]
